import Mathlib

/-!
Shallow embedding of `scripts/generate-sprite.py`: a procedural generator for a
384x384 sprite sheet of 36 frames (6 animation rows x 6 columns, each 64x64).
Rasters are modelled as total functions from integer coordinates to RGBA
colors; the PIL image of the source corresponds to the restriction of such a
function to the domain [0,64) x [0,64) (every write is guarded by those
bounds, as in the source's `px`).  Colors are 4-tuples of integers, as in the
source's palette.  Mutation of the PIL draw handle is modelled by explicit
state passing of the raster value.
-/

namespace Sprite

/-- An RGBA color: 4 integer channels, mirroring the Python 4-tuples. -/
structure Color where
  r : Int
  g : Int
  b : Int
  a : Int
deriving DecidableEq, Repr

/-- A raster is a total assignment of colors to integer coordinates; the
64x64 frame of the source is its restriction to [0,64) x [0,64). -/
abbrev Raster : Type := Int → Int → Color

-- W, H = 64, 64
def W : Int := 64
def H : Int := 64
-- COLS, ROWS = 6, 6
def COLS : Nat := 6
def ROWS : Nat := 6
-- SHEET_W, SHEET_H = W * COLS, H * ROWS
def SHEET_W : Int := W * COLS
def SHEET_H : Int := H * ROWS

-- Color palette
def TRANSPARENT : Color := ⟨0, 0, 0, 0⟩
def SKIN : Color := ⟨255, 210, 170, 255⟩
def SKIN_SHADOW : Color := ⟨230, 180, 140, 255⟩
def HAIR : Color := ⟨90, 60, 40, 255⟩
def HOODIE : Color := ⟨100, 130, 200, 255⟩
def HOODIE_DARK : Color := ⟨75, 100, 170, 255⟩
def HOODIE_LIGHT : Color := ⟨130, 160, 220, 255⟩
def DESK : Color := ⟨160, 120, 80, 255⟩
def DESK_TOP : Color := ⟨185, 145, 100, 255⟩
def DESK_DARK : Color := ⟨130, 95, 65, 255⟩
def CHAIR : Color := ⟨90, 90, 110, 255⟩
def CHAIR_BACK : Color := ⟨105, 105, 125, 255⟩
def MONITOR_FRAME : Color := ⟨70, 75, 95, 255⟩
def MONITOR_SCREEN : Color := ⟨30, 45, 75, 255⟩
def MONITOR_GREEN : Color := ⟨16, 220, 150, 255⟩
def MONITOR_BLUE : Color := ⟨80, 150, 255, 255⟩
def MONITOR_RED : Color := ⟨255, 90, 90, 255⟩
def SCREEN_LINE : Color := ⟨100, 150, 200, 220⟩
def EYE_WHITE : Color := ⟨255, 255, 255, 255⟩
def EYE_PUPIL : Color := ⟨40, 30, 25, 255⟩
def MOUTH : Color := ⟨200, 120, 100, 255⟩
def ZZZ : Color := ⟨170, 190, 240, 230⟩
def SPARKLE : Color := ⟨255, 230, 110, 255⟩
def SWEAT : Color := ⟨160, 220, 255, 240⟩
def OUTLINE : Color := ⟨50, 40, 35, 255⟩

/-- `px(draw, x, y, color)`: draw a single pixel, guarded by the frame bounds
and a nonzero-alpha test (`0 <= x < W and 0 <= y < H and color[3] > 0`). -/
def px (d : Raster) (x y : Int) (c : Color) : Raster :=
  if 0 ≤ x ∧ x < W ∧ 0 ≤ y ∧ y < H ∧ 0 < c.a then
    fun p q => if p = x ∧ q = y then c else d p q
  else d

/-- Inner loop of `rect`: `for dx in range(w): px(draw, x + dx, y, color)`. -/
def hline (d : Raster) (x y : Int) (w : Nat) (c : Color) : Raster :=
  (List.range w).foldl (fun r (dx : Nat) => px r (x + (dx : Int)) y c) d

/-- `rect(draw, x, y, w, h, color)`: filled rectangle drawn row by row, each
write routed through `px`. -/
def rect (d : Raster) (x y : Int) (w h : Nat) (c : Color) : Raster :=
  (List.range h).foldl (fun r (dy : Nat) => hline r x (y + (dy : Int)) w c) d

/-- Python-style list indexing (all in-source accesses are with an index in
range; out-of-range reads, which the source would raise on, return the
default). A negative index counts from the end as in Python. -/
def pyGet {α : Type} (l : List α) (i : Int) (dflt : α) : α :=
  if 0 ≤ i then l.getD i.toNat dflt else l.getD (l.length - (-i).toNat) dflt

/-- The `arms` parameter of `draw_body_sitting` (a string in the source). -/
inductive ArmPose where
  | desk
  | up
  | typing_l
  | typing_r
  | slumped
deriving DecidableEq, Repr

/-- The `eyes` parameter of `draw_head` (a string in the source; `opened`
stands for the source's `'open'`). -/
inductive EyeMode where
  | opened
  | closed
  | wide
deriving DecidableEq, Repr

/-- The `mouth` parameter of `draw_head` (a string in the source; `opened`
stands for the source's `'open'`). -/
inductive MouthMode where
  | smile
  | opened
  | flat
  | none
deriving DecidableEq, Repr

/-- `draw_desk(draw)`: desk top, front, shadow line and legs. -/
def draw_desk (d : Raster) : Raster :=
  let d := rect d 8 44 48 3 DESK_TOP
  let d := rect d 8 47 48 8 DESK
  let d := rect d 8 47 48 1 DESK_DARK
  let d := rect d 10 55 3 9 DESK_DARK
  rect d 51 55 3 9 DESK_DARK

/-- `draw_chair(draw)`: chair back and two side strips. -/
def draw_chair (d : Raster) : Raster :=
  let d := rect d 24 28 16 2 CHAIR_BACK
  let d := rect d 23 30 1 12 CHAIR_BACK
  rect d 40 30 1 12 CHAIR_BACK

/-- First part of `draw_monitors`: the two monitor bodies (frame, screen)
and their stands, drawn unconditionally. -/
def mon_base (d : Raster) : Raster :=
  let d := rect d 11 30 14 12 MONITOR_FRAME
  let d := rect d 12 31 12 10 MONITOR_SCREEN
  let d := rect d 16 42 4 2 MONITOR_FRAME
  let d := rect d 39 30 14 12 MONITOR_FRAME
  let d := rect d 40 31 12 10 MONITOR_SCREEN
  rect d 44 42 4 2 MONITOR_FRAME

/-- One iteration of the left-screen line-chart loop of `draw_monitors`
(`y_off = [3,2,4,1,3,2,5,3,1,2][i]`; mode 1 skips the indices with
`i % 3 == 0`). -/
def mon_chart_pt (left_glow : Color) (flicker : Nat) (r : Raster) (i : Nat) : Raster :=
  let y_off : Int := [3, 2, 4, 1, 3, 2, 5, 3, 1, 2].getD i 0
  if flicker = 1 ∧ i % 3 = 0 then r
  else
    let r := px r (13 + (i : Int)) (35 + y_off) left_glow
    px r (13 + (i : Int)) (36 + y_off) ⟨left_glow.r, left_glow.g, left_glow.b, 80⟩

/-- The left-screen line-chart loop of `draw_monitors`. -/
def mon_chart (d : Raster) (left_glow : Color) (flicker : Nat) : Raster :=
  (List.range 10).foldl (mon_chart_pt left_glow flicker) d

/-- One iteration of the right-screen candle loop of `draw_monitors`
(`h_val = [4,6,3,7,5][i]`; bars taller than 4 use the full glow color). -/
def mon_candle (right_glow : Color) (r : Raster) (i : Nat) : Raster :=
  let h_val : Nat := [4, 6, 3, 7, 5].getD i 0
  let c := if 4 < h_val then right_glow
           else ⟨right_glow.r, right_glow.g, right_glow.b, 150⟩
  rect r (41 + (i : Int) * 2) (38 - (h_val : Int)) 1 h_val c

/-- The right-screen candle loop of `draw_monitors`. -/
def mon_candles (d : Raster) (right_glow : Color) : Raster :=
  (List.range 5).foldl (mon_candle right_glow) d

/-- `draw_monitors(draw, left_glow, right_glow, flicker)`: two monitor bodies
with stands; when `flicker != 2`, a 10-point line chart on the left screen
(mode 1 skips indices with `i % 3 == 0`) and 5 candle bars on the right. -/
def draw_monitors (d : Raster) (left_glow right_glow : Color) (flicker : Nat) : Raster :=
  let d := mon_base d
  if flicker ≠ 2 then
    let d := mon_chart d left_glow flicker
    let d := mon_candles d right_glow
    d
  else d

/-- `draw_body_sitting(draw, y_off, arms)`: torso block with shading strips
and one of five arm poses. -/
def draw_body_sitting (d : Raster) (y_off : Int) (arms : ArmPose) : Raster :=
  let y := y_off
  let d := rect d 27 (36 + y) 10 8 HOODIE
  let d := rect d 26 (37 + y) 1 6 HOODIE_DARK
  let d := rect d 37 (37 + y) 1 6 HOODIE_DARK
  let d := rect d 32 (37 + y) 1 7 HOODIE_DARK
  match arms with
  | .desk =>
    let d := rect d 24 (42 + y) 4 2 HOODIE
    let d := rect d 36 (42 + y) 4 2 HOODIE
    let d := rect d 23 (42 + y) 2 2 SKIN
    rect d 39 (42 + y) 2 2 SKIN
  | .up =>
    let d := rect d 23 (33 + y) 3 2 HOODIE
    let d := rect d 38 (33 + y) 3 2 HOODIE
    let d := rect d 22 (31 + y) 2 3 HOODIE
    let d := rect d 40 (31 + y) 2 3 HOODIE
    let d := rect d 22 (30 + y) 2 2 SKIN
    rect d 40 (30 + y) 2 2 SKIN
  | .typing_l =>
    let d := rect d 24 (40 + y) 4 2 HOODIE
    let d := rect d 36 (42 + y) 4 2 HOODIE
    let d := rect d 23 (40 + y) 2 2 SKIN
    rect d 39 (42 + y) 2 2 SKIN
  | .typing_r =>
    let d := rect d 24 (42 + y) 4 2 HOODIE
    let d := rect d 36 (40 + y) 4 2 HOODIE
    let d := rect d 23 (42 + y) 2 2 SKIN
    rect d 39 (40 + y) 2 2 SKIN
  | .slumped =>
    let d := rect d 22 (43 + y) 6 2 HOODIE
    let d := rect d 36 (43 + y) 6 2 HOODIE
    let d := rect d 21 (43 + y) 2 2 SKIN
    rect d 41 (43 + y) 2 2 SKIN

/-- First part of `draw_head`: hair back, face block with shadow, hood with
highlight and the two hair strands — ten rectangles, all offset by `y`. -/
def head_base (d : Raster) (y : Int) : Raster :=
  let d := rect d 28 (24 + y) 8 3 HAIR
  let d := rect d 28 (26 + y) 8 9 SKIN
  let d := rect d 29 (25 + y) 6 1 SKIN
  let d := rect d 28 (33 + y) 8 2 SKIN_SHADOW
  let d := rect d 27 (24 + y) 10 3 HOODIE
  let d := rect d 26 (26 + y) 2 4 HOODIE
  let d := rect d 36 (26 + y) 2 4 HOODIE
  let d := rect d 28 (24 + y) 8 1 HOODIE_LIGHT
  let d := rect d 28 (26 + y) 2 2 HAIR
  rect d 34 (26 + y) 2 2 HAIR

/-- Eye section of `draw_head`: the source's `if/elif` chain (`blink` forces
the closed rendering even when `eyes == 'open'`). -/
def head_eyes (d : Raster) (y : Int) (eyes : EyeMode) (blink : Bool) (look_dir : Int) :
    Raster :=
  if eyes = .opened ∧ ¬ blink then
    let d := px d (30 + look_dir) (29 + y) EYE_WHITE
    let d := px d (30 + look_dir) (30 + y) EYE_PUPIL
    let d := px d (33 + look_dir) (29 + y) EYE_WHITE
    px d (33 + look_dir) (30 + y) EYE_PUPIL
  else if eyes = .closed ∨ blink then
    let d := px d 30 (30 + y) OUTLINE
    let d := px d 31 (30 + y) OUTLINE
    let d := px d 33 (30 + y) OUTLINE
    px d 34 (30 + y) OUTLINE
  else if eyes = .wide then
    let d := px d 30 (29 + y) EYE_WHITE
    let d := px d 31 (29 + y) EYE_WHITE
    let d := px d 30 (30 + y) EYE_PUPIL
    let d := px d 31 (30 + y) EYE_WHITE
    let d := px d 33 (29 + y) EYE_WHITE
    let d := px d 34 (29 + y) EYE_WHITE
    let d := px d 33 (30 + y) EYE_WHITE
    px d 34 (30 + y) EYE_PUPIL
  else d

/-- Mouth section of `draw_head`, selected by mode. -/
def head_mouth (d : Raster) (y : Int) (mouth : MouthMode) : Raster :=
  match mouth with
  | .smile =>
    let d := px d 31 (32 + y) MOUTH
    let d := px d 32 (33 + y) MOUTH
    px d 33 (32 + y) MOUTH
  | .opened =>
    let d := px d 31 (32 + y) MOUTH
    let d := px d 32 (32 + y) ⟨100, 50, 40, 255⟩
    let d := px d 33 (32 + y) MOUTH
    px d 32 (33 + y) MOUTH
  | .flat =>
    let d := px d 31 (32 + y) MOUTH
    let d := px d 32 (32 + y) MOUTH
    px d 33 (32 + y) MOUTH
  | .none => d

/-- `draw_head(draw, y_off, eyes, blink, look_dir, mouth)`: hair, face, hood,
then eyes and mouth selected by mode; `blink` forces the closed-eye branch. -/
def draw_head (d : Raster) (y_off : Int) (eyes : EyeMode) (blink : Bool)
    (look_dir : Int) (mouth : MouthMode) : Raster :=
  let y := y_off
  head_mouth (head_eyes (head_base d y) y eyes blink look_dir) y mouth

/-- One iteration of the `draw_zzz` loop: particle slot `i` with base position
`offsets[i]`, size `sizes[min(i, 2)]`, phase `f = (frame + i) % 6`, drawn only
while `f < 3 + i`, at height `b_y - f` with alpha `max(0, 255 - f * 40)`. -/
def zzz_slot (d : Raster) (frame : Int) (i : Nat) : Raster :=
  let offsets : List (Int × Int) := [(36, 22), (40, 18), (44, 14)]
  let sizes : List Nat := [1, 1, 2]
  let bx := (pyGet offsets (i : Int) (0, 0)).1
  let b_y := (pyGet offsets (i : Int) (0, 0)).2
  let f : Int := (frame + (i : Int)) % 6
  if f < 3 + (i : Int) then
    let s := pyGet sizes ((min i (sizes.length - 1) : Nat) : Int) 0
    let alpha : Int := max 0 (255 - f * 40)
    let color : Color := ⟨ZZZ.r, ZZZ.g, ZZZ.b, alpha⟩
    if s = 1 then
      px d bx (b_y - f) color
    else
      let d := rect d bx (b_y - f) 3 1 color
      let d := px d (bx + 2) (b_y + 1 - f) color
      rect d bx (b_y + 2 - f) 3 1 color
  else d

/-- `draw_zzz(draw, frame)`: three floating sleep-mark particle slots. -/
def draw_zzz (d : Raster) (frame : Int) : Raster :=
  (List.range 3).foldl (fun r (i : Nat) => zzz_slot r frame i) d

/-- `draw_sparkle(draw, frame)`: five celebration sparkles, phase
`(frame + i * 2) % 6`, visible for phases 0-2 with stepped alpha. -/
def draw_sparkle (d : Raster) (frame : Int) : Raster :=
  let positions : List (Int × Int) := [(18, 28), (44, 26), (22, 20), (40, 18), (32, 16)]
  (List.range 5).foldl (fun r (i : Nat) =>
    let sx := (pyGet positions (i : Int) (0, 0)).1
    let sy := (pyGet positions (i : Int) (0, 0)).2
    let f : Int := (frame + (i : Int) * 2) % 6
    if f < 3 then
      let alpha : Int := pyGet [255, 180, 100] f 0
      let c : Color := ⟨SPARKLE.r, SPARKLE.g, SPARKLE.b, alpha⟩
      let r := px r sx sy c
      let r := px r (sx - 1) sy c
      let r := px r (sx + 1) sy c
      let r := px r sx (sy - 1) c
      px r sx (sy + 1) c
    else r) d

/-- `draw_sweat(draw, frame)`: two sweat drops, phase `(frame + i * 3) % 6`,
descending by `f % 3`, visible for `f < 4`, with a faint pixel one row above
when the descent offset is nonzero. -/
def draw_sweat (d : Raster) (frame : Int) : Raster :=
  let drops : List (Int × Int) := [(26, 28), (38, 27)]
  (List.range 2).foldl (fun r (i : Nat) =>
    let sx := (pyGet drops (i : Int) (0, 0)).1
    let sy := (pyGet drops (i : Int) (0, 0)).2
    let f : Int := (frame + (i : Int) * 3) % 6
    let dy := f % 3
    if f < 4 then
      let r := px r sx (sy + dy) SWEAT
      if 0 < dy then px r sx (sy + dy - 1) ⟨SWEAT.r, SWEAT.g, SWEAT.b, 100⟩ else r
    else r) d

/-- `draw_frame(row, col)`: generate a single 64x64 frame, starting from a
fresh fully transparent raster; six mutually exclusive branches keyed by
`row`, with no `else` branch (an unmatched row returns the blank raster). -/
def draw_frame (row col : Int) : Raster :=
  let img : Raster := fun _ _ => TRANSPARENT
  let frame := col
  if row = 0 then
    let breath := pyGet [0, 0, -1, -1, 0, 0] frame 0
    let d := draw_desk img
    let d := draw_monitors d MONITOR_BLUE MONITOR_GREEN 0
    let d := draw_chair d
    let d := draw_body_sitting d breath .desk
    let arm_state := if frame = 2 then ArmPose.typing_r else ArmPose.desk
    let d := if arm_state ≠ ArmPose.desk then draw_body_sitting d breath arm_state else d
    draw_head d breath .opened (frame == 3) (pyGet [0, 0, 1, 0, -1, 0] frame 0) .smile
  else if row = 1 then
    let d := draw_desk img
    let flicker : Nat := if frame = 2 ∨ frame = 5 then 1 else 0
    let d := draw_monitors d MONITOR_BLUE MONITOR_GREEN flicker
    let d := draw_chair d
    let arms := pyGet [ArmPose.typing_l, .typing_r, .typing_l, .typing_r, .typing_l, .typing_r]
      frame .desk
    let d := draw_body_sitting d 0 arms
    draw_head d 0 .opened (frame == 4) (pyGet [0, 1, 0, -1, 0, 1] frame 0) .smile
  else if row = 2 then
    let d := draw_desk img
    let d := draw_monitors d MONITOR_BLUE MONITOR_GREEN 2
    let d := draw_chair d
    let d := draw_body_sitting d 1 .slumped
    let head_y : Int := 5
    let d := rect d 28 (30 + head_y) 8 6 HOODIE
    let d := rect d 29 (31 + head_y) 6 3 SKIN_SHADOW
    let d := rect d 27 (29 + head_y) 10 2 HOODIE_LIGHT
    draw_zzz d frame
  else if row = 3 then
    let breath := pyGet [0, -1, -2, -1, 0, -1] frame 0
    let d := draw_desk img
    let d := draw_monitors d MONITOR_GREEN MONITOR_GREEN 0
    let d := draw_chair d
    let arms := if frame = 1 ∨ frame = 2 ∨ frame = 3 ∨ frame = 4 then ArmPose.up
                else ArmPose.desk
    let d := draw_body_sitting d breath arms
    let d := draw_head d breath .opened false (pyGet [0, 0, 1, -1, 0, 0] frame 0)
      (if frame = 1 ∨ frame = 2 ∨ frame = 3 then MouthMode.opened else MouthMode.smile)
    draw_sparkle d frame
  else if row = 4 then
    let d := draw_desk img
    let flicker : Nat := if frame = 1 ∨ frame = 3 ∨ frame = 5 then 1 else 0
    let d := draw_monitors d MONITOR_RED MONITOR_RED flicker
    let d := draw_chair d
    let arms := pyGet [ArmPose.typing_l, .desk, .typing_r, .desk, .typing_l, .typing_r]
      frame .desk
    let d := draw_body_sitting d 0 arms
    let d := draw_head d 0 .wide false (pyGet [0, 1, 1, -1, -1, 0] frame 0) .flat
    draw_sweat d frame
  else if row = 5 then
    let d := draw_desk img
    let d := draw_chair d
    if frame < 2 then
      let d := draw_monitors d MONITOR_BLUE MONITOR_GREEN 2
      let breath : Int := if frame = 1 then -1 else 0
      let d := draw_body_sitting d breath .desk
      draw_head d breath (if frame = 0 then EyeMode.closed else .opened) false 0
        (if frame = 1 then MouthMode.opened else .flat)
    else if frame < 4 then
      let d := rect d 11 30 14 12 MONITOR_FRAME
      let d := rect d 12 31 12 10 MONITOR_SCREEN
      let d := rect d 16 42 4 2 MONITOR_FRAME
      let d := if 2 ≤ frame then
          (List.range 12).foldl (fun r (i : Nat) =>
            let alpha : Int := 60 + (frame - 2) * 80
            px r (13 + ((i % 6 : Nat) : Int)) (33 + ((i / 6 : Nat) : Int))
              ⟨MONITOR_BLUE.r, MONITOR_BLUE.g, MONITOR_BLUE.b, min alpha 200⟩) d
        else d
      let d := rect d 39 30 14 12 MONITOR_FRAME
      let d := rect d 40 31 12 10 MONITOR_SCREEN
      let d := rect d 44 42 4 2 MONITOR_FRAME
      let d := if frame = 3 then
          (List.range 6).foldl (fun r (i : Nat) =>
            px r (42 + (i : Int)) 35 ⟨MONITOR_GREEN.r, MONITOR_GREEN.g, MONITOR_GREEN.b, 80⟩) d
        else d
      let d := draw_body_sitting d 0 .desk
      draw_head d 0 .opened false (if frame = 2 then -1 else 1) .smile
    else
      let d := draw_monitors d MONITOR_BLUE MONITOR_GREEN 0
      let d := draw_body_sitting d 0 (if frame = 4 then ArmPose.desk else .typing_l)
      draw_head d 0 .opened false 0 .smile
  else img

/-- `sheet.paste(frame, (col * W, row * H))`: copy the 64x64 source raster
into the destination at the given offset, overwriting including alpha. -/
def paste (sheet fr : Raster) (ox oy : Int) : Raster :=
  fun x y =>
    if ox ≤ x ∧ x < ox + W ∧ oy ≤ y ∧ y < oy + H then fr (x - ox) (y - oy)
    else sheet x y

/-- Inner loop of `generate_sprite_sheet`: paste the six frames of one row
at their column offsets. -/
def sheet_row (row : Nat) (s : Raster) : Raster :=
  (List.range COLS).foldl (fun s2 (col : Nat) =>
    paste s2 (draw_frame (row : Int) (col : Int)) ((col : Int) * W) ((row : Int) * H)) s

/-- `generate_sprite_sheet()`: paste all 36 frames into a fresh 384x384
transparent raster, row by row, column by column. -/
def generate_sprite_sheet : Raster :=
  (List.range ROWS).foldl (fun s (row : Nat) => sheet_row row s) (fun _ _ => TRANSPARENT)

/-- Pointwise dependence: a raster transformer whose output at a coordinate
depends only on its input at that same coordinate. Every drawing routine of
the source has this shape, because all writes are blind (no read-modify). -/
def PtDep (F : Raster → Raster) : Prop :=
  ∀ (d1 d2 : Raster) (x y : Int), d1 x y = d2 x y → F d1 x y = F d2 x y

/-- Modelled from the spec: the clean reimplementation it proposes for the
idle row (row 0), computing the final arm pose for the column (`typing_r` on
the mouse-click column 2, otherwise `desk`) and drawing the body exactly
once, all other layers exactly as in `draw_frame`. -/
def idle_single_draw (col : Int) : Raster :=
  let img : Raster := fun _ _ => TRANSPARENT
  let frame := col
  let breath := pyGet [0, 0, -1, -1, 0, 0] frame 0
  let d := draw_desk img
  let d := draw_monitors d MONITOR_BLUE MONITOR_GREEN 0
  let d := draw_chair d
  let arm_state := if frame = 2 then ArmPose.typing_r else ArmPose.desk
  let d := draw_body_sitting d breath arm_state
  draw_head d breath .opened (frame == 3) (pyGet [0, 0, 1, 0, -1, 0] frame 0) .smile

/-! ## Point-value lemmas and pointwise dependence -/

/-- Point-value characterisation of `px`. -/
theorem px_apply (d : Raster) (x y : Int) (c : Color) (p q : Int) :
    px d x y c p q =
      if p = x ∧ q = y ∧ 0 ≤ p ∧ p < W ∧ 0 ≤ q ∧ q < H ∧ 0 < c.a then c
      else d p q := by
  unfold px
  by_cases hg : 0 ≤ x ∧ x < W ∧ 0 ≤ y ∧ y < H ∧ 0 < c.a
  · rw [if_pos hg]
    by_cases hpq : p = x ∧ q = y
    · obtain ⟨rfl, rfl⟩ := hpq
      rw [if_pos ⟨rfl, rfl⟩, if_pos ⟨rfl, rfl, hg⟩]
    · rw [if_neg hpq, if_neg (by tauto)]
  · rw [if_neg hg]
    split_ifs with h
    · obtain ⟨rfl, rfl, hrest⟩ := h
      exact absurd hrest hg
    · rfl

/-- Point-value characterisation of `hline`. -/
theorem hline_apply (d : Raster) (x y : Int) (w : Nat) (c : Color) (p q : Int) :
    hline d x y w c p q =
      if x ≤ p ∧ p < x + w ∧ q = y ∧ 0 ≤ p ∧ p < W ∧ 0 ≤ q ∧ q < H ∧ 0 < c.a then c
      else d p q := by
  induction w generalizing d with
  | zero =>
    simp only [hline, List.range_zero, List.foldl_nil]
    split_ifs with h
    · exact absurd h (by omega)
    · rfl
  | succ n ih =>
    unfold hline
    rw [List.range_succ, List.foldl_append]
    simp only [List.foldl_cons, List.foldl_nil]
    rw [px_apply]
    have hfold : (List.range n).foldl (fun r (dx : Nat) => px r (x + (dx : Int)) y c) d
        = hline d x y n c := rfl
    rw [hfold, ih]
    split_ifs <;> first | rfl | omega

/-- Point-value characterisation of `rect`. -/
theorem rect_apply (d : Raster) (x y : Int) (w h : Nat) (c : Color) (p q : Int) :
    rect d x y w h c p q =
      if x ≤ p ∧ p < x + w ∧ y ≤ q ∧ q < y + h ∧ 0 ≤ p ∧ p < W ∧ 0 ≤ q ∧ q < H ∧ 0 < c.a
      then c else d p q := by
  induction h generalizing d with
  | zero =>
    simp only [rect, List.range_zero, List.foldl_nil]
    split_ifs with h
    · exact absurd h (by omega)
    · rfl
  | succ n ih =>
    unfold rect
    rw [List.range_succ, List.foldl_append]
    simp only [List.foldl_cons, List.foldl_nil]
    rw [hline_apply]
    have hfold : (List.range n).foldl (fun r (dy : Nat) => hline r x (y + (dy : Int)) w c) d
        = rect d x y w n c := rfl
    rw [hfold, ih]
    split_ifs <;> first | rfl | omega


/-- The identity transformer is pointwise dependent. -/
theorem ptDep_id : PtDep (fun d => d) := fun _ _ _ _ h => h

/-- Pointwise dependence is preserved by a trailing `px` write. -/
theorem ptDep_px (F : Raster → Raster) (hF : PtDep F) (a b : Int) (c : Color) :
    PtDep (fun d => px (F d) a b c) := by
  intro d1 d2 x y h
  simp only [px_apply]
  rw [hF d1 d2 x y h]

/-- Pointwise dependence is preserved by a trailing `rect` write. -/
theorem ptDep_rect (F : Raster → Raster) (hF : PtDep F) (a b : Int) (w h : Nat) (c : Color) :
    PtDep (fun d => rect (F d) a b w h c) := by
  intro d1 d2 x y hxy
  simp only [rect_apply]
  rw [hF d1 d2 x y hxy]

/-- Pointwise dependence is preserved by composition. -/
theorem ptDep_comp (F G : Raster → Raster) (hF : PtDep F) (hG : PtDep G) :
    PtDep (fun d => G (F d)) :=
  fun _ _ x y h => hG _ _ x y (hF _ _ x y h)

/-- Pointwise dependence is preserved by a left fold whose steps all have
the property. -/
theorem ptDep_foldl {α : Type} (g : Raster → α → Raster)
    (hg : ∀ i : α, PtDep (fun d => g d i)) :
    ∀ l : List α, PtDep (fun d => l.foldl g d) := by
  intro l
  induction l with
  | nil => exact fun _ _ _ _ h => h
  | cons a t ih =>
    intro d1 d2 x y h
    simp only [List.foldl_cons]
    exact ih _ _ x y (hg a d1 d2 x y h)

/-- Each candle-bar iteration is pointwise dependent. -/
theorem ptDep_mon_candle (rg : Color) (i : Nat) : PtDep (fun d => mon_candle rg d i) := by
  unfold mon_candle
  exact ptDep_rect (fun d => d) ptDep_id _ _ _ _ _

/-- The candle loop is pointwise dependent. -/
theorem ptDep_mon_candles (rg : Color) : PtDep (fun d => mon_candles d rg) :=
  ptDep_foldl _ (ptDep_mon_candle rg) _

/-- Projection of a color literal. -/
theorem color_mk_a (r g b a : Int) : (Color.mk r g b a).a = a := rfl

/-- Point-value of a `px` write with the faint alpha-80 glow variant used by
the left-screen chart (its positive alpha discharged). -/
theorem px_apply_faint (d : Raster) (x y r g b p q : Int) :
    px d x y (Color.mk r g b 80) p q =
      if p = x ∧ q = y ∧ 0 ≤ p ∧ p < W ∧ 0 ≤ q ∧ q < H then Color.mk r g b 80
      else d p q := by
  rw [px_apply]
  norm_num

/-- Away from the eight chart points skipped by flicker mode 1 (indices 0, 3,
6, 9, two pixels each), the mode-1 chart loop writes exactly what the mode-0
loop writes. -/
theorem mon_chart_flicker_diff (d : Raster) (lg : Color) (x y : Int)
    (h : ¬((x = 13 ∧ (y = 38 ∨ y = 39)) ∨ (x = 16 ∧ (y = 36 ∨ y = 37)) ∨
           (x = 19 ∧ (y = 40 ∨ y = 41)) ∨ (x = 22 ∧ (y = 37 ∨ y = 38)))) :
    mon_chart d lg 1 x y = mon_chart d lg 0 x y := by
  have h10 : List.range 10 = [0, 1, 2, 3, 4, 5, 6, 7, 8, 9] := rfl
  simp only [mon_chart, h10, List.foldl_cons, List.foldl_nil, mon_chart_pt, List.getD]
  norm_num
  repeat (first | rw [px_apply_faint] | rw [px_apply])
  rw [show W = 64 from rfl, show H = 64 from rfl]
  rw [if_neg (show ¬(x = 13 ∧ y = 38 ∧ 0 ≤ x ∧ x < 64 ∧ 0 ≤ y ∧ y < 64 ∧ 0 < lg.a) by omega)]
  rw [if_neg (show ¬(x = 13 ∧ y = 39 ∧ 0 ≤ x ∧ x < 64 ∧ 0 ≤ y ∧ y < 64) by omega)]
  rw [if_neg (show ¬(x = 16 ∧ y = 36 ∧ 0 ≤ x ∧ x < 64 ∧ 0 ≤ y ∧ y < 64 ∧ 0 < lg.a) by omega)]
  rw [if_neg (show ¬(x = 16 ∧ y = 37 ∧ 0 ≤ x ∧ x < 64 ∧ 0 ≤ y ∧ y < 64) by omega)]
  rw [if_neg (show ¬(x = 19 ∧ y = 40 ∧ 0 ≤ x ∧ x < 64 ∧ 0 ≤ y ∧ y < 64 ∧ 0 < lg.a) by omega)]
  rw [if_neg (show ¬(x = 19 ∧ y = 41 ∧ 0 ≤ x ∧ x < 64 ∧ 0 ≤ y ∧ y < 64) by omega)]
  rw [if_neg (show ¬(x = 22 ∧ y = 37 ∧ 0 ≤ x ∧ x < 64 ∧ 0 ≤ y ∧ y < 64 ∧ 0 < lg.a) by omega)]
  rw [if_neg (show ¬(x = 22 ∧ y = 38 ∧ 0 ≤ x ∧ x < 64 ∧ 0 ≤ y ∧ y < 64) by omega)]

/-- Point-value of a `px` write with a literal fully opaque color. -/
theorem px_apply255 (d : Raster) (x y r g b p q : Int) :
    px d x y (Color.mk r g b 255) p q =
      if p = x ∧ q = y ∧ 0 ≤ p ∧ p < 64 ∧ 0 ≤ q ∧ q < 64 then Color.mk r g b 255
      else d p q := by
  rw [px_apply, show W = 64 from rfl, show H = 64 from rfl]
  norm_num [color_mk_a]

/-- Point-value of a `rect` write with a literal fully opaque color. -/
theorem rect_apply255 (d : Raster) (x y : Int) (w h : Nat) (r g b p q : Int) :
    rect d x y w h (Color.mk r g b 255) p q =
      if x ≤ p ∧ p < x + w ∧ y ≤ q ∧ q < y + h ∧ 0 ≤ p ∧ p < 64 ∧ 0 ≤ q ∧ q < 64
      then Color.mk r g b 255 else d p q := by
  rw [rect_apply, show W = 64 from rfl, show H = 64 from rfl]
  norm_num [color_mk_a]

/-- Inside either screen interior, the base monitor drawing shows the flat
screen color, whatever raster it is drawn over. -/
theorem mon_base_screens (d : Raster) (x y : Int)
    (hx : (12 ≤ x ∧ x < 24) ∨ (40 ≤ x ∧ x < 52)) (hy : 31 ≤ y ∧ y < 41) :
    mon_base d x y = MONITOR_SCREEN := by
  simp only [mon_base, MONITOR_FRAME, MONITOR_SCREEN]
  repeat rw [rect_apply255]
  split_ifs <;> first | rfl | omega

set_option maxHeartbeats 2000000 in
/-- The sleep-mark overlay draws nothing at or below row 25. -/
theorem draw_zzz_high (d : Raster) (frame x y : Int) (hy : 25 ≤ y) :
    draw_zzz d frame x y = d x y := by
  have h3 : List.range 3 = [0, 1, 2] := rfl
  have ht : Int.toNat 2 = 2 := rfl
  simp only [draw_zzz, h3, List.foldl_cons, List.foldl_nil, zzz_slot, pyGet]
  norm_num [ht, color_mk_a]
  split_ifs <;>
    first
    | rfl
    | (repeat (first | rw [px_apply] | rw [rect_apply])
       rw [show W = 64 from rfl, show H = 64 from rfl]
       simp only [color_mk_a]
       split_ifs <;> first | rfl | omega)

set_option maxHeartbeats 1000000 in
/-- Inside either screen interior, a sleeping-row frame shows the chair-back
strip on screen columns 23 and 40 (the chair is drawn over the monitors, as
in every state) and the flat screen color everywhere else — in particular no
chart content. -/
theorem sleeping_frame_screens (col : Nat) (x y : Int)
    (hx : (12 ≤ x ∧ x < 24) ∨ (40 ≤ x ∧ x < 52)) (hy : 31 ≤ y ∧ y < 41)
    (hzzz : ∀ (d : Raster) (frame : Int), draw_zzz d frame x y = d x y) :
    draw_frame 2 col x y = if x = 23 ∨ x = 40 then CHAIR_BACK else MONITOR_SCREEN := by
  have hfr : draw_frame 2 (col : Int) x y =
      draw_zzz (rect (rect (rect (draw_body_sitting
        (draw_chair (draw_monitors (draw_desk (fun _ _ => TRANSPARENT))
          MONITOR_BLUE MONITOR_GREEN 2)) 1 .slumped)
        28 (30 + 5) 8 6 HOODIE) 29 (31 + 5) 6 3 SKIN_SHADOW)
        27 (29 + 5) 10 2 HOODIE_LIGHT) (col : Int) x y := rfl
  rw [hfr, hzzz]
  simp only [draw_body_sitting, draw_chair, HOODIE, HOODIE_DARK, HOODIE_LIGHT, SKIN,
    SKIN_SHADOW, CHAIR_BACK]
  repeat rw [rect_apply255]
  rw [show (draw_monitors (draw_desk (fun _ _ => TRANSPARENT)) MONITOR_BLUE MONITOR_GREEN 2)
      = mon_base (draw_desk (fun _ _ => TRANSPARENT)) from rfl]
  clear hfr
  rw [if_neg (show ¬(27 ≤ x ∧ x < 27 + ((10:Nat):Int) ∧ 29 + 5 ≤ y ∧ y < 29 + 5 + ((2:Nat):Int) ∧
    0 ≤ x ∧ x < 64 ∧ 0 ≤ y ∧ y < 64) by omega)]
  rw [if_neg (show ¬(29 ≤ x ∧ x < 29 + ((6:Nat):Int) ∧ 31 + 5 ≤ y ∧ y < 31 + 5 + ((3:Nat):Int) ∧
    0 ≤ x ∧ x < 64 ∧ 0 ≤ y ∧ y < 64) by omega)]
  rw [if_neg (show ¬(28 ≤ x ∧ x < 28 + ((8:Nat):Int) ∧ 30 + 5 ≤ y ∧ y < 30 + 5 + ((6:Nat):Int) ∧
    0 ≤ x ∧ x < 64 ∧ 0 ≤ y ∧ y < 64) by omega)]
  rw [if_neg (show ¬(41 ≤ x ∧ x < 41 + ((2:Nat):Int) ∧ 43 + 1 ≤ y ∧ y < 43 + 1 + ((2:Nat):Int) ∧
    0 ≤ x ∧ x < 64 ∧ 0 ≤ y ∧ y < 64) by omega)]
  rw [if_neg (show ¬(21 ≤ x ∧ x < 21 + ((2:Nat):Int) ∧ 43 + 1 ≤ y ∧ y < 43 + 1 + ((2:Nat):Int) ∧
    0 ≤ x ∧ x < 64 ∧ 0 ≤ y ∧ y < 64) by omega)]
  rw [if_neg (show ¬(36 ≤ x ∧ x < 36 + ((6:Nat):Int) ∧ 43 + 1 ≤ y ∧ y < 43 + 1 + ((2:Nat):Int) ∧
    0 ≤ x ∧ x < 64 ∧ 0 ≤ y ∧ y < 64) by omega)]
  rw [if_neg (show ¬(22 ≤ x ∧ x < 22 + ((6:Nat):Int) ∧ 43 + 1 ≤ y ∧ y < 43 + 1 + ((2:Nat):Int) ∧
    0 ≤ x ∧ x < 64 ∧ 0 ≤ y ∧ y < 64) by omega)]
  rw [if_neg (show ¬(32 ≤ x ∧ x < 32 + ((1:Nat):Int) ∧ 37 + 1 ≤ y ∧ y < 37 + 1 + ((7:Nat):Int) ∧
    0 ≤ x ∧ x < 64 ∧ 0 ≤ y ∧ y < 64) by omega)]
  rw [if_neg (show ¬(37 ≤ x ∧ x < 37 + ((1:Nat):Int) ∧ 37 + 1 ≤ y ∧ y < 37 + 1 + ((6:Nat):Int) ∧
    0 ≤ x ∧ x < 64 ∧ 0 ≤ y ∧ y < 64) by omega)]
  rw [if_neg (show ¬(26 ≤ x ∧ x < 26 + ((1:Nat):Int) ∧ 37 + 1 ≤ y ∧ y < 37 + 1 + ((6:Nat):Int) ∧
    0 ≤ x ∧ x < 64 ∧ 0 ≤ y ∧ y < 64) by omega)]
  rw [if_neg (show ¬(27 ≤ x ∧ x < 27 + ((10:Nat):Int) ∧ 36 + 1 ≤ y ∧ y < 36 + 1 + ((8:Nat):Int) ∧
    0 ≤ x ∧ x < 64 ∧ 0 ≤ y ∧ y < 64) by omega)]
  rw [if_neg (show ¬(24 ≤ x ∧ x < 24 + ((16:Nat):Int) ∧ 28 ≤ y ∧ y < 28 + ((2:Nat):Int) ∧
    0 ≤ x ∧ x < 64 ∧ 0 ≤ y ∧ y < 64) by omega)]
  by_cases hx40 : x = 40
  · rw [if_pos (show 40 ≤ x ∧ x < 40 + ((1:Nat):Int) ∧ 30 ≤ y ∧ y < 30 + ((12:Nat):Int) ∧
      0 ≤ x ∧ x < 64 ∧ 0 ≤ y ∧ y < 64 by omega)]
    rw [if_pos (Or.inr hx40)]
  · rw [if_neg (show ¬(40 ≤ x ∧ x < 40 + ((1:Nat):Int) ∧ 30 ≤ y ∧ y < 30 + ((12:Nat):Int) ∧
      0 ≤ x ∧ x < 64 ∧ 0 ≤ y ∧ y < 64) by omega)]
    by_cases hx23 : x = 23
    · rw [if_pos (show 23 ≤ x ∧ x < 23 + ((1:Nat):Int) ∧ 30 ≤ y ∧ y < 30 + ((12:Nat):Int) ∧
        0 ≤ x ∧ x < 64 ∧ 0 ≤ y ∧ y < 64 by omega)]
      rw [if_pos (Or.inl hx23)]
    · rw [if_neg (show ¬(23 ≤ x ∧ x < 23 + ((1:Nat):Int) ∧ 30 ≤ y ∧ y < 30 + ((12:Nat):Int) ∧
        0 ≤ x ∧ x < 64 ∧ 0 ≤ y ∧ y < 64) by omega)]
      rw [if_neg (show ¬(x = 23 ∨ x = 40) by tauto)]
      exact mon_base_screens _ x y hx hy


/-- A paste leaves every pixel outside its 64x64 target region unchanged. -/
theorem paste_miss (s fr : Raster) (ox oy X Y : Int)
    (h : ¬(ox ≤ X ∧ X < ox + 64 ∧ oy ≤ Y ∧ Y < oy + 64)) :
    paste s fr ox oy X Y = s X Y := by
  unfold paste
  rw [show W = (64:Int) from rfl, show H = (64:Int) from rfl]
  exact if_neg h

/-- Inside its 64x64 target region, a paste shows the source frame. -/
theorem paste_hit (s fr : Raster) (ox oy X Y : Int)
    (h : ox ≤ X ∧ X < ox + 64 ∧ oy ≤ Y ∧ Y < oy + 64) :
    paste s fr ox oy X Y = fr (X - ox) (Y - oy) := by
  unfold paste
  rw [show W = (64:Int) from rfl, show H = (64:Int) from rfl]
  exact if_pos h

/-- A sheet row's six pastes leave every pixel outside the row's horizontal
band unchanged. -/
theorem sheet_row_miss (row : Nat) (s : Raster) (X Y : Int)
    (h : ¬((row : Int) * 64 ≤ Y ∧ Y < (row : Int) * 64 + 64)) :
    sheet_row row s X Y = s X Y := by
  have h6 : List.range COLS = [0, 1, 2, 3, 4, 5] := rfl
  simp only [sheet_row, h6, List.foldl_cons, List.foldl_nil, W, H]
  rw [paste_miss _ _ (((5:Nat):Int) * 64) ((row : Int) * 64) X Y (by omega)]
  rw [paste_miss _ _ (((4:Nat):Int) * 64) ((row : Int) * 64) X Y (by omega)]
  rw [paste_miss _ _ (((3:Nat):Int) * 64) ((row : Int) * 64) X Y (by omega)]
  rw [paste_miss _ _ (((2:Nat):Int) * 64) ((row : Int) * 64) X Y (by omega)]
  rw [paste_miss _ _ (((1:Nat):Int) * 64) ((row : Int) * 64) X Y (by omega)]
  rw [paste_miss _ _ (((0:Nat):Int) * 64) ((row : Int) * 64) X Y (by omega)]

/-- Inside the cell of column `col`, a sheet row shows frame `(row, col)`. -/
theorem sheet_row_hit (row col : Nat) (hcol : col < 6) (s : Raster) (x y : Int)
    (hx : 0 ≤ x ∧ x < 64) (hy : 0 ≤ y ∧ y < 64) :
    sheet_row row s ((col : Int) * 64 + x) ((row : Int) * 64 + y) = draw_frame row col x y := by
  have h6 : List.range COLS = [0, 1, 2, 3, 4, 5] := rfl
  interval_cases col <;>
    simp only [sheet_row, h6, List.foldl_cons, List.foldl_nil, W, H]
  ·
    rw [paste_miss _ _ (((5:Nat):Int) * 64) ((row : Int) * 64) (((0:Nat):Int) * 64 + x) ((row : Int) * 64 + y) (by omega)]
    rw [paste_miss _ _ (((4:Nat):Int) * 64) ((row : Int) * 64) (((0:Nat):Int) * 64 + x) ((row : Int) * 64 + y) (by omega)]
    rw [paste_miss _ _ (((3:Nat):Int) * 64) ((row : Int) * 64) (((0:Nat):Int) * 64 + x) ((row : Int) * 64 + y) (by omega)]
    rw [paste_miss _ _ (((2:Nat):Int) * 64) ((row : Int) * 64) (((0:Nat):Int) * 64 + x) ((row : Int) * 64 + y) (by omega)]
    rw [paste_miss _ _ (((1:Nat):Int) * 64) ((row : Int) * 64) (((0:Nat):Int) * 64 + x) ((row : Int) * 64 + y) (by omega)]
    rw [paste_hit _ _ (((0:Nat):Int) * 64) ((row : Int) * 64) (((0:Nat):Int) * 64 + x) ((row : Int) * 64 + y) (by omega)]
    simp only [add_sub_cancel_left]
  ·
    rw [paste_miss _ _ (((5:Nat):Int) * 64) ((row : Int) * 64) (((1:Nat):Int) * 64 + x) ((row : Int) * 64 + y) (by omega)]
    rw [paste_miss _ _ (((4:Nat):Int) * 64) ((row : Int) * 64) (((1:Nat):Int) * 64 + x) ((row : Int) * 64 + y) (by omega)]
    rw [paste_miss _ _ (((3:Nat):Int) * 64) ((row : Int) * 64) (((1:Nat):Int) * 64 + x) ((row : Int) * 64 + y) (by omega)]
    rw [paste_miss _ _ (((2:Nat):Int) * 64) ((row : Int) * 64) (((1:Nat):Int) * 64 + x) ((row : Int) * 64 + y) (by omega)]
    rw [paste_hit _ _ (((1:Nat):Int) * 64) ((row : Int) * 64) (((1:Nat):Int) * 64 + x) ((row : Int) * 64 + y) (by omega)]
    simp only [add_sub_cancel_left]
  ·
    rw [paste_miss _ _ (((5:Nat):Int) * 64) ((row : Int) * 64) (((2:Nat):Int) * 64 + x) ((row : Int) * 64 + y) (by omega)]
    rw [paste_miss _ _ (((4:Nat):Int) * 64) ((row : Int) * 64) (((2:Nat):Int) * 64 + x) ((row : Int) * 64 + y) (by omega)]
    rw [paste_miss _ _ (((3:Nat):Int) * 64) ((row : Int) * 64) (((2:Nat):Int) * 64 + x) ((row : Int) * 64 + y) (by omega)]
    rw [paste_hit _ _ (((2:Nat):Int) * 64) ((row : Int) * 64) (((2:Nat):Int) * 64 + x) ((row : Int) * 64 + y) (by omega)]
    simp only [add_sub_cancel_left]
  ·
    rw [paste_miss _ _ (((5:Nat):Int) * 64) ((row : Int) * 64) (((3:Nat):Int) * 64 + x) ((row : Int) * 64 + y) (by omega)]
    rw [paste_miss _ _ (((4:Nat):Int) * 64) ((row : Int) * 64) (((3:Nat):Int) * 64 + x) ((row : Int) * 64 + y) (by omega)]
    rw [paste_hit _ _ (((3:Nat):Int) * 64) ((row : Int) * 64) (((3:Nat):Int) * 64 + x) ((row : Int) * 64 + y) (by omega)]
    simp only [add_sub_cancel_left]
  ·
    rw [paste_miss _ _ (((5:Nat):Int) * 64) ((row : Int) * 64) (((4:Nat):Int) * 64 + x) ((row : Int) * 64 + y) (by omega)]
    rw [paste_hit _ _ (((4:Nat):Int) * 64) ((row : Int) * 64) (((4:Nat):Int) * 64 + x) ((row : Int) * 64 + y) (by omega)]
    simp only [add_sub_cancel_left]
  ·
    rw [paste_hit _ _ (((5:Nat):Int) * 64) ((row : Int) * 64) (((5:Nat):Int) * 64 + x) ((row : Int) * 64 + y) (by omega)]
    simp only [add_sub_cancel_left]

/-- The head-base layer depends on its input raster only pointwise. -/
theorem head_base_congr (d1 d2 : Raster) (y x q : Int) (h : d1 x q = d2 x q) :
    head_base d1 y x q = head_base d2 y x q := by
  unfold head_base
  repeat rw [rect_apply]
  rw [h]

/-- The eye layer depends on its input raster only pointwise. -/
theorem head_eyes_congr (d1 d2 : Raster) (y : Int) (eyes : EyeMode) (blink : Bool)
    (look_dir x q : Int) (h : d1 x q = d2 x q) :
    head_eyes d1 y eyes blink look_dir x q = head_eyes d2 y eyes blink look_dir x q := by
  unfold head_eyes
  split_ifs <;> (repeat rw [px_apply]) <;> rw [h]

/-- The mouth layer depends on its input raster only pointwise. -/
theorem head_mouth_congr (d1 d2 : Raster) (y : Int) (mouth : MouthMode) (x q : Int)
    (h : d1 x q = d2 x q) :
    head_mouth d1 y mouth x q = head_mouth d2 y mouth x q := by
  cases mouth <;> simp only [head_mouth] <;> (repeat rw [px_apply]) <;> rw [h]

/-- The whole head drawing depends on its input raster only pointwise. -/
theorem draw_head_congr (d1 d2 : Raster) (y_off : Int) (eyes : EyeMode) (blink : Bool)
    (look_dir : Int) (mouth : MouthMode) (x q : Int) (h : d1 x q = d2 x q) :
    draw_head d1 y_off eyes blink look_dir mouth x q
      = draw_head d2 y_off eyes blink look_dir mouth x q := by
  unfold draw_head
  exact head_mouth_congr _ _ _ _ _ _
    (head_eyes_congr _ _ _ _ _ _ _ _ (head_base_congr _ _ _ _ _ h))

set_option maxHeartbeats 2000000 in
/-- Away from the seven residual pixels (the desk-pose right forearm and hand
pixels that the later `typing_r` redraw does not cover), drawing the body
twice (desk pose, then typing_r over it) agrees pointwise with drawing it
once in the final `typing_r` pose, over any base raster, at breathing offset
-1 (the idle row's offset on column 2). -/
theorem idle_body_double (pre : Raster) (x y : Int)
    (hD : ¬((x = 37 ∧ y = 42) ∨ (x = 38 ∧ (y = 41 ∨ y = 42)) ∨
            (x = 39 ∧ (y = 41 ∨ y = 42)) ∨ (x = 40 ∧ (y = 41 ∨ y = 42)))) :
    draw_body_sitting (draw_body_sitting pre (-1) .desk) (-1) .typing_r x y
      = draw_body_sitting pre (-1) .typing_r x y := by
  simp only [draw_body_sitting, HOODIE, HOODIE_DARK, SKIN]
  repeat rw [rect_apply255]
  by_cases h1 : 39 ≤ x ∧ x < 39 + ((2:Nat):Int) ∧ 40 + -1 ≤ y ∧ y < 40 + -1 + ((2:Nat):Int) ∧
      0 ≤ x ∧ x < 64 ∧ 0 ≤ y ∧ y < 64
  · rw [if_pos h1, if_pos h1]
  · rw [if_neg h1, if_neg h1]
    by_cases h2 : 23 ≤ x ∧ x < 23 + ((2:Nat):Int) ∧ 42 + -1 ≤ y ∧ y < 42 + -1 + ((2:Nat):Int) ∧
        0 ≤ x ∧ x < 64 ∧ 0 ≤ y ∧ y < 64
    · rw [if_pos h2, if_pos h2]
    · rw [if_neg h2, if_neg h2, if_neg h2]
      by_cases h3 : 36 ≤ x ∧ x < 36 + ((4:Nat):Int) ∧ 40 + -1 ≤ y ∧ y < 40 + -1 + ((2:Nat):Int) ∧
          0 ≤ x ∧ x < 64 ∧ 0 ≤ y ∧ y < 64
      · rw [if_pos h3, if_pos h3]
      · rw [if_neg h3, if_neg h3]
        by_cases h4 : 24 ≤ x ∧ x < 24 + ((4:Nat):Int) ∧ 42 + -1 ≤ y ∧ y < 42 + -1 + ((2:Nat):Int) ∧
            0 ≤ x ∧ x < 64 ∧ 0 ≤ y ∧ y < 64
        · rw [if_pos h4, if_pos h4]
        · rw [if_neg h4, if_neg h4]
          by_cases h5 : 32 ≤ x ∧ x < 32 + ((1:Nat):Int) ∧ 37 + -1 ≤ y ∧ y < 37 + -1 + ((7:Nat):Int) ∧
              0 ≤ x ∧ x < 64 ∧ 0 ≤ y ∧ y < 64
          · rw [if_pos h5, if_pos h5]
          · rw [if_neg h5, if_neg h5]
            by_cases h6 : 37 ≤ x ∧ x < 37 + ((1:Nat):Int) ∧ 37 + -1 ≤ y ∧ y < 37 + -1 + ((6:Nat):Int) ∧
                0 ≤ x ∧ x < 64 ∧ 0 ≤ y ∧ y < 64
            · rw [if_pos h6, if_pos h6]
            · rw [if_neg h6, if_neg h6]
              by_cases h7 : 26 ≤ x ∧ x < 26 + ((1:Nat):Int) ∧ 37 + -1 ≤ y ∧ y < 37 + -1 + ((6:Nat):Int) ∧
                  0 ≤ x ∧ x < 64 ∧ 0 ≤ y ∧ y < 64
              · rw [if_pos h7, if_pos h7]
              · rw [if_neg h7, if_neg h7]
                by_cases h8 : 27 ≤ x ∧ x < 27 + ((10:Nat):Int) ∧ 36 + -1 ≤ y ∧ y < 36 + -1 + ((8:Nat):Int) ∧
                    0 ≤ x ∧ x < 64 ∧ 0 ≤ y ∧ y < 64
                · rw [if_pos h8, if_pos h8]
                · rw [if_neg h8, if_neg h8]
                  rw [if_neg (show ¬(39 ≤ x ∧ x < 39 + ((2:Nat):Int) ∧ 42 + -1 ≤ y ∧
                      y < 42 + -1 + ((2:Nat):Int) ∧ 0 ≤ x ∧ x < 64 ∧ 0 ≤ y ∧ y < 64) by omega)]
                  rw [if_neg (show ¬(36 ≤ x ∧ x < 36 + ((4:Nat):Int) ∧ 42 + -1 ≤ y ∧
                      y < 42 + -1 + ((2:Nat):Int) ∧ 0 ≤ x ∧ x < 64 ∧ 0 ≤ y ∧ y < 64) by omega)]

/-! ## Claim theorems -/

set_option maxRecDepth 100000

/-- Claim C3: a `px` write at an out-of-bounds coordinate leaves the raster
unchanged; a `px` write with a zero-alpha color is a no-op at every
coordinate; and a `rect` write never changes the raster at any out-of-bounds
coordinate (every `rect` write routes through the `px` guard). -/
theorem primitive_write_guards :
    (∀ (d : Raster) (x y : Int) (c : Color), (x < 0 ∨ W ≤ x ∨ y < 0 ∨ H ≤ y) →
      px d x y c = d) ∧
    (∀ (d : Raster) (x y : Int) (c : Color), c.a = 0 → px d x y c = d) ∧
    (∀ (d : Raster) (x y : Int) (w h : Nat) (c : Color) (p q : Int),
      (p < 0 ∨ W ≤ p ∨ q < 0 ∨ H ≤ q) → rect d x y w h c p q = d p q) := by
  refine ⟨fun d x y c hout => ?_, fun d x y c ha => ?_, fun d x y w h c p q hout => ?_⟩
  · unfold px
    rw [if_neg]
    intro hg
    rcases hout with h | h | h | h <;> omega
  · unfold px
    rw [if_neg]
    intro hg
    omega
  · rw [rect_apply]
    rw [if_neg]
    intro hg
    rcases hout with h | h | h | h <;> omega

/-- Claim C3 witness at a concrete out-of-bounds write. -/
theorem primitive_write_guards_witness :
    px (fun _ _ => TRANSPARENT) 64 0 HOODIE = (fun _ _ => TRANSPARENT) :=
  primitive_write_guards.1 (fun _ _ => TRANSPARENT) 64 0 HOODIE (Or.inr (Or.inl (by decide)))

/-- Claim C2: `draw_frame` is deterministic and pure: it is a function of the
`(row, col)` indices alone (the source allocates a fresh transparent raster
on every call and writes only through its local draw handle, which the
embedding reflects by giving `draw_frame` no other input), so two calls with
identical arguments yield identical rasters. -/
theorem draw_frame_deterministic (r1 c1 r2 c2 : Int) (hr : r1 = r2) (hc : c1 = c2) :
    draw_frame r1 c1 = draw_frame r2 c2 := by rw [hr, hc]

/-- Claim C2 witness at concrete indices. -/
theorem draw_frame_deterministic_witness : draw_frame 0 0 = draw_frame 0 0 :=
  draw_frame_deterministic 0 0 0 0 rfl rfl

/-- Claim C10: for every row outside {0,...,5} and any column, `draw_frame`
takes none of its six branches and returns the untouched fully transparent
raster. -/
theorem unmatched_row_blank (row col : Int) (h : row < 0 ∨ 5 < row) (x y : Int) :
    draw_frame row col x y = TRANSPARENT := by
  unfold draw_frame
  rw [if_neg (by omega), if_neg (by omega), if_neg (by omega), if_neg (by omega),
    if_neg (by omega), if_neg (by omega)]

/-- Claim C10 witness at row 6. -/
theorem unmatched_row_blank_witness : draw_frame 6 0 0 0 = TRANSPARENT :=
  unmatched_row_blank 6 0 (Or.inr (by decide)) 0 0

/-- Claim C5 counterexample: the claim says `draw_frame 0 3` has open eyes at
breathing offset 0, which would put `EYE_WHITE` at pixel (30, 29); the code
blinks on the idle row's column 3 at breathing offset -1, so that pixel is
the closed-eye `OUTLINE` color instead. -/
theorem idle_col3_not_open_eyes :
    draw_frame 0 3 30 29 = OUTLINE ∧ draw_frame 0 3 30 29 ≠ EYE_WHITE := by decide

/-- Claim C5 amended: `draw_frame 0 3` is rendered with breathing offset -1
(idle's offset table `[0,0,-1,-1,0,0]` at index 3) and with eyes closed
(idle blinks exactly on column 3): the four closed-eye `OUTLINE` pixels are
present at row `30 + (-1) = 29`, while a non-blink idle column (column 0)
shows the open-eye white at (30, 29). -/
theorem idle_col3_blinks_at_breath_neg_one :
    pyGet [0, 0, -1, -1, 0, 0] 3 0 = -1 ∧
    draw_frame 0 3 30 29 = OUTLINE ∧ draw_frame 0 3 31 29 = OUTLINE ∧
    draw_frame 0 3 33 29 = OUTLINE ∧ draw_frame 0 3 34 29 = OUTLINE ∧
    draw_frame 0 0 30 29 = EYE_WHITE ∧ draw_frame 0 0 30 30 = EYE_PUPIL := by decide

/-- Claim C6: on every column of the worried row (row 4), the head is drawn
with wide eyes and a flat mouth: the full 8-pixel wide-eye pattern (2x2
sockets with one corner pupil per eye) and the 3-pixel flat mouth line are
present in the final frame, independently of the column. -/
theorem worried_row_wide_flat : ∀ col : Nat, col < 6 →
    draw_frame 4 col 30 29 = EYE_WHITE ∧ draw_frame 4 col 31 29 = EYE_WHITE ∧
    draw_frame 4 col 30 30 = EYE_PUPIL ∧ draw_frame 4 col 31 30 = EYE_WHITE ∧
    draw_frame 4 col 33 29 = EYE_WHITE ∧ draw_frame 4 col 34 29 = EYE_WHITE ∧
    draw_frame 4 col 33 30 = EYE_WHITE ∧ draw_frame 4 col 34 30 = EYE_PUPIL ∧
    draw_frame 4 col 31 32 = MOUTH ∧ draw_frame 4 col 32 32 = MOUTH ∧
    draw_frame 4 col 33 32 = MOUTH := by decide

/-- Claim C6 witness at column 0. -/
theorem worried_row_wide_flat_witness : draw_frame 4 0 30 29 = EYE_WHITE :=
  (worried_row_wide_flat 0 (by decide)).1

/-- Claim C7 counterexample: the claim says a sleep-mark slot is still
rendered when its phase equals the threshold `3 + slot`; at frame 3, slot 0
has phase 3 and the claim would put a Z pixel of alpha `255 - 3 * 40 = 135`
at (36, 22 - 3); the code hides the slot already at that phase (`f < 3 + i`
is strict), and indeed all three slots are hidden at frame 3, so the pixel
is transparent. -/
theorem zzz_phase_eq_threshold_hidden :
    draw_frame 2 3 36 19 = TRANSPARENT ∧
    draw_frame 2 3 36 19 ≠ Color.mk 170 190 240 135 := by decide

/-- Claim C7 amended: `draw_zzz` runs slots 0, 1, 2 in order; slot `i` with
phase `f = (frame + i) % 6` is hidden (draws nothing) once `f` reaches
`3 + i`, and for `f` strictly below `3 + i` it draws its Z glyph at vertical
offset `-f` from its base position with alpha `max 0 (255 - 40 * f)` — a
single pixel for slots 0 and 1, and the 3-wide bent shape (top bar, corner
pixel, bottom bar) for slot 2. -/
theorem zzz_slot_render_rule (d : Raster) (frame : Int) :
    draw_zzz d frame = zzz_slot (zzz_slot (zzz_slot d frame 0) frame 1) frame 2 ∧
    ∀ i : Nat, i < 3 →
      (3 + (i : Int) ≤ (frame + (i : Int)) % 6 → zzz_slot d frame i = d) ∧
      ((frame + (i : Int)) % 6 < 3 + (i : Int) →
        zzz_slot d frame i =
          (let f : Int := (frame + (i : Int)) % 6
           let c : Color := ⟨170, 190, 240, max 0 (255 - f * 40)⟩
           if i = 0 then px d 36 (22 - f) c
           else if i = 1 then px d 40 (18 - f) c
           else rect (px (rect d 44 (14 - f) 3 1 c) 46 (15 - f) c) 44 (16 - f) 3 1 c)) := by
  refine ⟨rfl, fun i hi => ?_⟩
  interval_cases i <;> refine ⟨fun h => ?_, fun h => ?_⟩ <;>
    simp only [zzz_slot, pyGet, ZZZ] <;>
    first
    | rw [if_neg (by push_cast at h ⊢; omega)]
    | (rw [if_pos (by push_cast at h ⊢; omega)]; rfl)

/-- Claim C7 amended witness: at frame 3, slot 0 has phase 3 = threshold and
is hidden. -/
theorem zzz_slot_render_rule_witness :
    zzz_slot (fun _ _ => TRANSPARENT) 3 0 = (fun _ _ => TRANSPARENT) :=
  ((zzz_slot_render_rule (fun _ _ => TRANSPARENT) 3).2 0 (by decide)).1 (by decide)

set_option maxHeartbeats 2000000 in
/-- Claim C9: flicker mode 1 differs from mode 0 only at the left-screen
chart points with index divisible by 3 (0, 3, 6, 9 — two pixels each, the
glow pixel and its faint alpha-80 shadow): everywhere else, including the
whole right screen and its candle bars, modes 1 and 0 draw pixel-identical
content; and at those eight skipped pixels mode 1 shows exactly what the
content-free off mode (2) shows. -/
theorem flicker_skips_left_chart_only :
    (∀ (d : Raster) (lg rg : Color) (x y : Int),
      ¬((x = 13 ∧ (y = 38 ∨ y = 39)) ∨ (x = 16 ∧ (y = 36 ∨ y = 37)) ∨
        (x = 19 ∧ (y = 40 ∨ y = 41)) ∨ (x = 22 ∧ (y = 37 ∨ y = 38))) →
      draw_monitors d lg rg 1 x y = draw_monitors d lg rg 0 x y) ∧
    (∀ (d : Raster) (lg rg : Color) (x y : Int),
      ((x = 13 ∧ (y = 38 ∨ y = 39)) ∨ (x = 16 ∧ (y = 36 ∨ y = 37)) ∨
       (x = 19 ∧ (y = 40 ∨ y = 41)) ∨ (x = 22 ∧ (y = 37 ∨ y = 38))) →
      draw_monitors d lg rg 1 x y = draw_monitors d lg rg 2 x y) := by
  constructor
  · intro d lg rg x y h
    show mon_candles (mon_chart (mon_base d) lg 1) rg x y
      = mon_candles (mon_chart (mon_base d) lg 0) rg x y
    exact ptDep_mon_candles rg _ _ x y (mon_chart_flicker_diff (mon_base d) lg x y h)
  · intro d lg rg x y hsk
    show mon_candles (mon_chart (mon_base d) lg 1) rg x y = mon_base d x y
    have h10 : List.range 10 = [0, 1, 2, 3, 4, 5, 6, 7, 8, 9] := rfl
    have h5 : List.range 5 = [0, 1, 2, 3, 4] := rfl
    rcases hsk with ⟨rfl, rfl | rfl⟩ | ⟨rfl, rfl | rfl⟩ | ⟨rfl, rfl | rfl⟩ | ⟨rfl, rfl | rfl⟩ <;>
    · simp only [mon_candles, mon_chart, h10, h5, List.foldl_cons, List.foldl_nil,
        mon_chart_pt, mon_candle, List.getD]
      norm_num [px_apply, rect_apply, W, H, color_mk_a]

/-- Claim C9 witness at a concrete off-chart pixel and colors. -/
theorem flicker_skips_left_chart_only_witness :
    draw_monitors (fun _ _ => TRANSPARENT) MONITOR_BLUE MONITOR_GREEN 1 0 0
      = draw_monitors (fun _ _ => TRANSPARENT) MONITOR_BLUE MONITOR_GREEN 0 0 0 :=
  flicker_skips_left_chart_only.1 (fun _ _ => TRANSPARENT) MONITOR_BLUE MONITOR_GREEN 0 0
    (by norm_num)

/-- Claim C4: with flicker mode 2 (off), `draw_monitors` leaves both screen
interiors as flat screen color (no line-chart or candle pixels, whatever
glow colors are passed); consequently every sleeping-row frame
(`draw_frame 2 col`) shows, over the two screen interiors, only the flat
screen color — apart from the two chair-back strips at columns 23 and 40,
which the chair layer draws over the monitors in every state. -/
theorem sleeping_screens_flat :
    (∀ (d : Raster) (lg rg : Color) (x y : Int),
      ((12 ≤ x ∧ x < 24) ∨ (40 ≤ x ∧ x < 52)) → (31 ≤ y ∧ y < 41) →
      draw_monitors d lg rg 2 x y = MONITOR_SCREEN) ∧
    (∀ col : Nat, col < 6 → ∀ (x y : Int),
      ((12 ≤ x ∧ x < 24) ∨ (40 ≤ x ∧ x < 52)) → (31 ≤ y ∧ y < 41) →
      draw_frame 2 col x y = if x = 23 ∨ x = 40 then CHAIR_BACK else MONITOR_SCREEN) := by
  constructor
  · intro d lg rg x y hx hy
    show mon_base d x y = MONITOR_SCREEN
    exact mon_base_screens d x y hx hy
  · intro col hcol x y hx hy
    exact sleeping_frame_screens col x y hx hy
      (fun d frame => draw_zzz_high d frame x y (by omega))

/-- Claim C4 witness at a concrete screen-interior pixel of frame (2, 0). -/
theorem sleeping_screens_flat_witness :
    draw_frame 2 0 13 35 = if (13:Int) = 23 ∨ (13:Int) = 40 then CHAIR_BACK
      else MONITOR_SCREEN :=
  sleeping_screens_flat.2 0 (by norm_num) 13 35 (by norm_num) (by norm_num)

/-- Claim C1: the assembled sheet is 384x384 (`SHEET_W = SHEET_H = 384`),
and for every row `r` and column `c` in [0,5], the pixel of the sheet at
`(64 c + x, 64 r + y)` with `0 <= x, y < 64` equals pixel `(x, y)` of
`draw_frame r c`: frame `(r, c)` occupies exactly the sub-rectangle
`[64 c, 64 c + 64) x [64 r, 64 r + 64)` pixel-for-pixel. -/
theorem sheet_assembles_frames :
    SHEET_W = 384 ∧ SHEET_H = 384 ∧
    ∀ (r c : Nat), r < 6 → c < 6 → ∀ (x y : Int), 0 ≤ x ∧ x < 64 → 0 ≤ y ∧ y < 64 →
      generate_sprite_sheet ((c : Int) * 64 + x) ((r : Int) * 64 + y) = draw_frame r c x y := by
  refine ⟨rfl, rfl, fun r c hr hc x y hx hy => ?_⟩
  have h6 : List.range ROWS = [0, 1, 2, 3, 4, 5] := rfl
  simp only [generate_sprite_sheet, h6, List.foldl_cons, List.foldl_nil]
  interval_cases r
  ·
    rw [sheet_row_miss 5 _ ((c : Int) * 64 + x) (((0:Nat):Int) * 64 + y) (by omega)]
    rw [sheet_row_miss 4 _ ((c : Int) * 64 + x) (((0:Nat):Int) * 64 + y) (by omega)]
    rw [sheet_row_miss 3 _ ((c : Int) * 64 + x) (((0:Nat):Int) * 64 + y) (by omega)]
    rw [sheet_row_miss 2 _ ((c : Int) * 64 + x) (((0:Nat):Int) * 64 + y) (by omega)]
    rw [sheet_row_miss 1 _ ((c : Int) * 64 + x) (((0:Nat):Int) * 64 + y) (by omega)]
    exact sheet_row_hit 0 c hc _ x y hx hy
  ·
    rw [sheet_row_miss 5 _ ((c : Int) * 64 + x) (((1:Nat):Int) * 64 + y) (by omega)]
    rw [sheet_row_miss 4 _ ((c : Int) * 64 + x) (((1:Nat):Int) * 64 + y) (by omega)]
    rw [sheet_row_miss 3 _ ((c : Int) * 64 + x) (((1:Nat):Int) * 64 + y) (by omega)]
    rw [sheet_row_miss 2 _ ((c : Int) * 64 + x) (((1:Nat):Int) * 64 + y) (by omega)]
    exact sheet_row_hit 1 c hc _ x y hx hy
  ·
    rw [sheet_row_miss 5 _ ((c : Int) * 64 + x) (((2:Nat):Int) * 64 + y) (by omega)]
    rw [sheet_row_miss 4 _ ((c : Int) * 64 + x) (((2:Nat):Int) * 64 + y) (by omega)]
    rw [sheet_row_miss 3 _ ((c : Int) * 64 + x) (((2:Nat):Int) * 64 + y) (by omega)]
    exact sheet_row_hit 2 c hc _ x y hx hy
  ·
    rw [sheet_row_miss 5 _ ((c : Int) * 64 + x) (((3:Nat):Int) * 64 + y) (by omega)]
    rw [sheet_row_miss 4 _ ((c : Int) * 64 + x) (((3:Nat):Int) * 64 + y) (by omega)]
    exact sheet_row_hit 3 c hc _ x y hx hy
  ·
    rw [sheet_row_miss 5 _ ((c : Int) * 64 + x) (((4:Nat):Int) * 64 + y) (by omega)]
    exact sheet_row_hit 4 c hc _ x y hx hy
  ·
    exact sheet_row_hit 5 c hc _ x y hx hy

/-- Claim C1 witness at the top-left pixel of frame (0, 0). -/
theorem sheet_assembles_frames_witness :
    generate_sprite_sheet (((0:Nat) : Int) * 64 + 0) (((0:Nat) : Int) * 64 + 0)
      = draw_frame ((0:Nat) : Int) ((0:Nat) : Int) 0 0 :=
  sheet_assembles_frames.2.2 0 0 (by norm_num) (by norm_num) 0 0 (by norm_num) (by norm_num)

set_option maxHeartbeats 2000000 in
/-- Claim C8 amended: on the idle row's mouse-click column (row 0, col 2),
the code's two sequential body draws (desk pose, then `typing_r` redrawn
over it) equal the spec's proposed single draw with the final arm pose
(`idle_single_draw`) at every pixel except the seven residual pixels
{(37,42), (38,41), (38,42), (39,41), (39,42), (40,41), (40,42)}, where the
first draw's desk-pose right forearm and hand remain visible because the
raised-arm redraw does not cover them. -/
theorem idle_double_draw_agrees (x y : Int)
    (hD : ¬((x = 37 ∧ y = 42) ∨ (x = 38 ∧ (y = 41 ∨ y = 42)) ∨
            (x = 39 ∧ (y = 41 ∨ y = 42)) ∨ (x = 40 ∧ (y = 41 ∨ y = 42)))) :
    draw_frame 0 2 x y = idle_single_draw 2 x y := by
  have hL : draw_frame 0 2 =
      draw_head (draw_body_sitting (draw_body_sitting
        (draw_chair (draw_monitors (draw_desk (fun _ _ => TRANSPARENT))
          MONITOR_BLUE MONITOR_GREEN 0)) (-1) .desk) (-1) .typing_r)
        (-1) EyeMode.opened false 1 MouthMode.smile := rfl
  have hR : idle_single_draw 2 =
      draw_head (draw_body_sitting
        (draw_chair (draw_monitors (draw_desk (fun _ _ => TRANSPARENT))
          MONITOR_BLUE MONITOR_GREEN 0)) (-1) .typing_r)
        (-1) EyeMode.opened false 1 MouthMode.smile := rfl
  rw [hL, hR]
  exact draw_head_congr _ _ (-1) EyeMode.opened false 1 MouthMode.smile x y
    (idle_body_double _ x y hD)

/-- Claim C8 amended witness at a pixel outside the residual region. -/
theorem idle_double_draw_agrees_witness :
    draw_frame 0 2 0 0 = idle_single_draw 2 0 0 :=
  idle_double_draw_agrees 0 0 (by norm_num)

set_option maxRecDepth 1000000 in
/-- Claim C8 counterexample: the double draw is not pixel-equivalent to a
single draw with the final arm pose: at (38, 41) the frame keeps the
desk-pose right forearm's `HOODIE` color while the single-draw
reimplementation leaves the pixel fully transparent. -/
theorem idle_double_draw_differs :
    draw_frame 0 2 38 41 ≠ idle_single_draw 2 38 41 ∧
    draw_frame 0 2 38 41 = HOODIE ∧ idle_single_draw 2 38 41 = TRANSPARENT := by decide

end Sprite
